import Mathlib

/-!
Verification of the M3 Data Logger QR-generator tool
(`tools/qr_generator/generate_qr.py` and `tools/qr_generator/api.py`).

The Python source is shallowly embedded below: the validators are pure
functions returning `(Bool, String)` pairs exactly like the Python
`(ok, reason)` tuples, `json.dumps(..., separators=(',',':'))` on the two
fixed-shape dicts is embedded as explicit string concatenation with the
standard-library JSON escaping rules (`ensure_ascii=True` is the Python
default, so the serialized form is pure ASCII and its character count
equals its byte count), and the two orchestration functions are embedded
as functions returning an `Except` result together with the list of
QR-encoder side effects they would perform, in program order.
-/

set_option maxRecDepth 100000

namespace M3QR

/-! ## Character classes (all comparisons at the ASCII code-point level) -/

/-- ASCII digit, the regex class [0-9] (code points 48-57). -/
def isDigitAscii (c : Char) : Bool :=
  48 ≤ c.toNat && c.toNat ≤ 57

/-- ASCII letter or digit, the regex class [a-zA-Z0-9] and the characters
Python `str.isalnum` accepts in the ASCII range (the Python predicate also
accepts non-ASCII alphanumerics; every string this development feeds to it
is ASCII, so the restriction is invisible here). -/
def isAlnumAscii (c : Char) : Bool :=
  (65 ≤ c.toNat && c.toNat ≤ 90) || (97 ≤ c.toNat && c.toNat ≤ 122) || isDigitAscii c

/-- The regex class [a-zA-Z0-9-]: alphanumeric or hyphen (code point 45). -/
def isAlnumHyphen (c : Char) : Bool :=
  isAlnumAscii c || c.toNat = 45

/-- Printable ASCII, `0x20 <= ord(c) <= 0x7E` in the Python source. -/
def isPrintableAscii (c : Char) : Bool :=
  0x20 ≤ c.toNat && c.toNat ≤ 0x7e

/-! ## Compact JSON serialization (`json.dumps(..., separators=(',',':'))`)

Python's `json.dumps` with default `ensure_ascii=True` escapes `"` and `\`
with a backslash, uses the two-character escapes for backspace, tab,
newline, form feed and carriage return, and writes every other character
outside 0x20..0x7E as `\uXXXX` (a surrogate pair for code points above
0xFFFF, lowercase hex digits). Everything in 0x20..0x7E other than `"`
and `\` is emitted verbatim. -/

/-- Lowercase hexadecimal digit, as produced by Python's `\uXXXX` escapes. -/
def hexDigitLower (n : Nat) : Char :=
  if n < 10 then Char.ofNat (48 + n) else Char.ofNat (87 + n)

/-- Four-digit lowercase hexadecimal rendering of `n % 0x10000`. -/
def toHex4 (n : Nat) : String :=
  String.mk [hexDigitLower (n / 4096 % 16), hexDigitLower (n / 256 % 16),
    hexDigitLower (n / 16 % 16), hexDigitLower (n % 16)]

/-- JSON escape of one character, following `json.encoder` with
`ensure_ascii=True` (the `json.dumps` default used by the source). -/
def jsonEscapeChar (c : Char) : String :=
  if c = '\x22' then "\\\""
  else if c = '\\' then "\\\\"
  else if c = '\x08' then "\\b"
  else if c = '\x09' then "\\t"
  else if c = '\x0a' then "\\n"
  else if c = '\x0c' then "\\f"
  else if c = '\x0d' then "\\r"
  else if 0x20 ≤ c.toNat ∧ c.toNat ≤ 0x7e then String.singleton c
  else if c.toNat < 0x10000 then "\\u" ++ toHex4 c.toNat
  else "\\u" ++ toHex4 (0xd800 + (c.toNat - 0x10000) / 1024) ++
    "\\u" ++ toHex4 (0xdc00 + (c.toNat - 0x10000) % 1024)

/-- JSON rendering of a Python string: quoted, characters escaped. -/
def jsonString (s : String) : String :=
  "\"" ++ String.join (s.data.map jsonEscapeChar) ++ "\""

/-! ## Constants from `generate_qr.py` lines 34-45 -/

def QR_MAX_PAYLOAD_BYTES : Nat := 220
def WIFI_SSID_MAX_LEN : Nat := 16
def WIFI_PASSWORD_MAX_LEN : Nat := 16
def MQTT_HOST_MAX_LEN : Nat := 40
def MQTT_USERNAME_MAX_LEN : Nat := 10
def MQTT_PASSWORD_MAX_LEN : Nat := 10
def DEVICE_ID_MAX_LEN : Nat := 10

/-! ## The two record kinds -/

/-- The seven raw inputs of the device-config paths (`generate_config_qr`
in the CLI and `ConfigQRRequest` in the API). The port is an `Int`
because Python's `argparse type=int` and pydantic's `int` field admit any
integer before validation. -/
structure DeviceConfig where
  wifi_ssid : String
  wifi_password : String
  mqtt_host : String
  mqtt_port : Int
  mqtt_username : String
  mqtt_password : String
  device_id : String
deriving DecidableEq, Repr

/-- `json.dumps(metadata, separators=(',',':'))` for the dict built in
source order `test_id`, `description`, `labels` (`generate_qr.py`
lines 177-184; dicts preserve insertion order). -/
def dumpsMetadata (test_id description : String) (labels : List String) : String :=
  "\x7b\"test_id\":" ++ jsonString test_id ++
  ",\"description\":" ++ jsonString description ++
  ",\"labels\":[" ++ String.intercalate "," (labels.map jsonString) ++ "]\x7d"

/-- `json.dumps(config_data, separators=(',',':'))` for the nested dict
built in source order (`generate_qr.py` lines 264-281). -/
def dumpsConfig (c : DeviceConfig) : String :=
  "\x7b\"type\":\"device_config\",\"version\":\"1.0\"," ++
  "\"wifi\":\x7b\"ssid\":" ++ jsonString c.wifi_ssid ++
  ",\"password\":" ++ jsonString c.wifi_password ++
  "\x7d,\"mqtt\":\x7b\"host\":" ++ jsonString c.mqtt_host ++
  ",\"port\":" ++ toString c.mqtt_port ++
  ",\"username\":" ++ jsonString c.mqtt_username ++
  ",\"password\":" ++ jsonString c.mqtt_password ++
  ",\"device_id\":" ++ jsonString c.device_id ++ "\x7d\x7d"

/-! ## Validators (`generate_qr.py` lines 65-147), each returning the
Python `(ok, reason)` pair -/

/-- `validate_test_id`: exactly 8 characters, `str.isalnum`. -/
def validate_test_id (test_id : String) : Bool × String :=
  if test_id.length ≠ 8 then (false, "test_id must be exactly 8 characters")
  else if ¬ (test_id.data.all isAlnumAscii = true) then
    (false, "test_id must be alphanumeric only")
  else (true, "")

/-- `validate_description`: 1-64 characters. -/
def validate_description (description : String) : Bool × String :=
  if description.length = 0 then (false, "description cannot be empty")
  else if description.length > 64 then
    (false, "description must be 64 characters or less")
  else (true, "")

/-- `validate_labels`: 1-10 labels, each 1-32 characters; first violation
is reported, citing the offending label. -/
def validate_labels (labels : List String) : Bool × String :=
  if labels.length = 0 then (false, "must provide at least 1 label")
  else if labels.length > 10 then (false, "cannot exceed 10 labels")
  else
    match labels.find? (fun l => l.length = 0 || l.length > 32) with
    | some l =>
      if l.length = 0 then (false, "label \x27" ++ l ++ "\x27 cannot be empty")
      else (false, "label \x27" ++ l ++ "\x27 exceeds 32 characters")
    | none => (true, "")

/-- `validate_wifi_ssid`: 1-16 characters, printable ASCII. -/
def validate_wifi_ssid (ssid : String) : Bool × String :=
  if ¬ (1 ≤ ssid.length ∧ ssid.length ≤ WIFI_SSID_MAX_LEN) then
    (false, "SSID must be 1-16 characters (IEEE 802.11 allows 32, reduced for QR size)")
  else if ¬ (ssid.data.all isPrintableAscii = true) then
    (false, "SSID contains non-printable characters (use printable ASCII)")
  else (true, "")

/-- `validate_wifi_password`: 8-16 characters, printable ASCII. -/
def validate_wifi_password (password : String) : Bool × String :=
  if ¬ (8 ≤ password.length ∧ password.length ≤ 16) then
    (false, "Password must be 8-16 characters (WPA2 requirement + QR size limit)")
  else if ¬ (password.data.all isPrintableAscii = true) then
    (false, "Password must contain only printable ASCII characters (ASCII 32-126)")
  else (true, "")

/-! `validate_mqtt_host` applies `re.match` with the two anchored patterns
of `generate_qr.py` lines 127-129. `re.match` anchors at the start of the
string, and in Python an unadorned `$` matches at the end of the string
OR just before a newline that is the last character, so each pattern's
language is its core language, optionally followed by one final newline
(no pattern atom can consume a newline, the character classes exclude it). -/

/-- Splitting a character list at the dots, exactly as `str.split('.')`:
`""` gives one empty chunk, and every dot separates two chunks (so
leading, trailing and adjacent dots give empty chunks). -/
def splitOnDots (l : List Char) : List (List Char) :=
  match l with
  | [] => [[]]
  | c :: rest =>
    if c = '.' then [] :: splitOnDots rest
    else
      match splitOnDots rest with
      | [] => [[c]]
      | p :: ps => (c :: p) :: ps

/-- One DNS label of the regex:
`[a-zA-Z0-9]([a-zA-Z0-9-]{0,61}[a-zA-Z0-9])?` — a leading alphanumeric,
then optionally up to 61 alphanumeric-or-hyphen characters followed by a
final alphanumeric. -/
def dnsLabelMatch (l : List Char) : Bool :=
  match l with
  | [] => false
  | c :: rest =>
    isAlnumAscii c &&
    (rest.isEmpty ||
      (rest.length ≤ 62 && rest.dropLast.all isAlnumHyphen &&
        (match rest.getLast? with
         | some d => isAlnumAscii d
         | none => false)))

/-- Core language of the DNS pattern `^L(\.L)*$`: every dot-separated
chunk is a label (splitting on `.` yields at least one chunk, and an
empty chunk fails `dnsLabelMatch`, which rejects adjacent, leading or
trailing dots exactly as the regex does). -/
def dnsCoreMatch (s : String) : Bool :=
  (splitOnDots s.data).all dnsLabelMatch

/-- One octet of the IPv4 regex alternation
`25[0-5]|2[0-4][0-9]|[01]?[0-9][0-9]?` (code points: 50 = 2, 53 = 5,
48 = 0, 52 = 4, 49 = 1). -/
def ipv4OctetMatch (p : List Char) : Bool :=
  match p with
  | [a] => isDigitAscii a
  | [a, b] => isDigitAscii a && isDigitAscii b
  | [a, b, c] =>
    (a.toNat = 50 && b.toNat = 53 && (48 ≤ c.toNat && c.toNat ≤ 53)) ||
    (a.toNat = 50 && (48 ≤ b.toNat && b.toNat ≤ 52) && isDigitAscii c) ||
    ((a.toNat = 48 || a.toNat = 49) && isDigitAscii b && isDigitAscii c)
  | _ => false

/-- Core language of the IPv4 pattern `^(O\.){3}O$`: exactly four
dot-separated chunks, each an octet. -/
def ipv4CoreMatch (s : String) : Bool :=
  match splitOnDots s.data with
  | [a, b, c, d] => ipv4OctetMatch a && ipv4OctetMatch b && ipv4OctetMatch c && ipv4OctetMatch d
  | _ => false

/-- Python full-pattern match for an `^...$` pattern whose body cannot
consume a newline: the core matches the whole string, or the string ends
in a newline and the core matches everything before it. -/
def pyDollarMatch (core : String → Bool) (s : String) : Bool :=
  core s ||
    (match s.data.getLast? with
     | some c => c = '\x0a' && core (String.mk s.data.dropLast)
     | none => false)

/-- `validate_mqtt_host`: DNS name or IPv4 address. -/
def validate_mqtt_host (host : String) : Bool × String :=
  if pyDollarMatch dnsCoreMatch host || pyDollarMatch ipv4CoreMatch host then (true, "")
  else (false, "Invalid MQTT host format (must be DNS name or IPv4 address)")

/-- `validate_mqtt_port`: 1-65535. -/
def validate_mqtt_port (port : Int) : Bool × String :=
  if ¬ (1 ≤ port ∧ port ≤ 65535) then
    (false, "Port " ++ toString port ++ " out of valid range (1-65535)")
  else (true, "")

/-- `validate_device_id`: 1-10 characters. -/
def validate_device_id (device_id : String) : Bool × String :=
  if ¬ (1 ≤ device_id.length ∧ device_id.length ≤ DEVICE_ID_MAX_LEN) then
    (false, "Device ID must be 1-10 characters")
  else (true, "")

/-! ## ID generator (`generate_qr.py` lines 48-62) -/

/-- The character set
`set(string.ascii_uppercase + string.digits) - set('01IOl')` of
`generate_short_uuid`. Python joins this set in an unspecified iteration
order; only the set of characters is meaningful, and `random.choice` is
uniform over it in any order, so one fixed order is used here. -/
def uuidAlphabet : List Char :=
  ("ABCDEFGHIJKLMNOPQRSTUVWXYZ0123456789".data).filter
    (fun c => ¬ ("01IOl".data.contains c = true))

/-- `generate_short_uuid`: one `random.choice(chars)` per position,
modelled by a stream `pick` of indices into the alphabet. -/
def generate_short_uuid (pick : Nat → Fin uuidAlphabet.length) (length : Nat) : String :=
  String.mk ((List.range length).map (fun i => uuidAlphabet.get (pick i)))

/-- A deterministic choice stream (always the first alphabet character),
used to instantiate theorems at concrete inputs. -/
def constPick : Nat → Fin uuidAlphabet.length :=
  fun _ => ⟨0, by decide⟩

/-! ## Orchestration, with the QR-encoder side effects made explicit

The qrcode library calls that each Python function would perform are
recorded in program order, so that "the encoder is never invoked" is the
statement that the event list is empty. -/

/-- The externally observable qrcode-library calls. -/
inductive QREvent where
  | qrConstruct : QREvent
  | qrAddData : String → QREvent
  | qrMake : QREvent
  | qrPrintAscii : QREvent
  | qrMakeImage : QREvent
  | imgSave : QREvent
deriving DecidableEq, Repr

/-- Encoder events of the CLI success path: construct, add data, make,
then the optional terminal display and the optional image save. -/
def cliEncodeEvents (json_str : String) (showFlag saveFlag : Bool) : List QREvent :=
  [QREvent.qrConstruct, QREvent.qrAddData json_str, QREvent.qrMake] ++
  (if showFlag then [QREvent.qrPrintAscii] else []) ++
  (if saveFlag then [QREvent.qrMakeImage, QREvent.imgSave] else [])

/-- `generate_qr_code` (CLI metadata path, `generate_qr.py` lines
150-211): validate, build, serialize, encode — with no size check. -/
def generate_qr_code (test_id description : String) (labels : List String)
    (showFlag saveFlag : Bool) : Except String String × List QREvent :=
  if (validate_test_id test_id).1 = false then
    (Except.error ("Invalid test_id: " ++ (validate_test_id test_id).2), [])
  else if (validate_description description).1 = false then
    (Except.error ("Invalid description: " ++ (validate_description description).2), [])
  else if (validate_labels labels).1 = false then
    (Except.error ("Invalid labels: " ++ (validate_labels labels).2), [])
  else
    (Except.ok (dumpsMetadata test_id description labels),
     cliEncodeEvents (dumpsMetadata test_id description labels) showFlag saveFlag)

/-- One line of the size-guard error's field-usage table:
`"  {name}: {actual}/{max} chars\n"`. -/
def fieldUsageLine (name : String) (actual maxLen : Nat) : String :=
  "  " ++ name ++ ": " ++ toString actual ++ "/" ++ toString maxLen ++ " chars\n"

/-- The `field_usage` string of `generate_qr.py` lines 286-295. -/
def configFieldUsage (c : DeviceConfig) : String :=
  fieldUsageLine "WiFi SSID" c.wifi_ssid.length WIFI_SSID_MAX_LEN ++
  fieldUsageLine "WiFi Password" c.wifi_password.length WIFI_PASSWORD_MAX_LEN ++
  fieldUsageLine "MQTT Host" c.mqtt_host.length MQTT_HOST_MAX_LEN ++
  fieldUsageLine "MQTT Username" c.mqtt_username.length MQTT_USERNAME_MAX_LEN ++
  fieldUsageLine "MQTT Password" c.mqtt_password.length MQTT_PASSWORD_MAX_LEN ++
  fieldUsageLine "Device ID" c.device_id.length DEVICE_ID_MAX_LEN ++
  "\nNote: You cannot max out all fields simultaneously.\n" ++
  "Reduce longest fields (MQTT host, SSID, or passwords) to fit."

/-- The CLI size-guard `ValueError` message (`generate_qr.py` lines 296-299). -/
def configSizeErrorMsg (c : DeviceConfig) (json_size : Nat) : String :=
  "Config JSON too large (" ++ toString json_size ++ " bytes, max " ++
  toString QR_MAX_PAYLOAD_BYTES ++ ")\nCurrent field usage:\n" ++ configFieldUsage c

/-- `generate_config_qr` (CLI config path, `generate_qr.py` lines
214-331): the validations in source order, the size guard, then the
encoder.  The final display-masking step mutates the nested dicts and is
modelled separately (`maskPasswordsForDisplay`); it does not affect the
returned JSON string, which is serialized before it. -/
def generate_config_qr (c : DeviceConfig) (showFlag saveFlag : Bool) :
    Except String String × List QREvent :=
  if (validate_wifi_ssid c.wifi_ssid).1 = false then
    (Except.error ("Invalid WiFi SSID: " ++ (validate_wifi_ssid c.wifi_ssid).2), [])
  else if (validate_wifi_password c.wifi_password).1 = false then
    (Except.error ("Invalid WiFi password: " ++ (validate_wifi_password c.wifi_password).2), [])
  else if (validate_mqtt_host c.mqtt_host).1 = false then
    (Except.error ("Invalid MQTT host: " ++ (validate_mqtt_host c.mqtt_host).2), [])
  else if c.mqtt_host.length > MQTT_HOST_MAX_LEN then
    (Except.error ("MQTT host too long (" ++ toString c.mqtt_host.length ++
      " chars, max " ++ toString MQTT_HOST_MAX_LEN ++ ")"), [])
  else if (validate_mqtt_port c.mqtt_port).1 = false then
    (Except.error ("Invalid MQTT port: " ++ (validate_mqtt_port c.mqtt_port).2), [])
  else if c.mqtt_username.length > MQTT_USERNAME_MAX_LEN then
    (Except.error ("MQTT username too long (" ++ toString c.mqtt_username.length ++
      " chars, max " ++ toString MQTT_USERNAME_MAX_LEN ++ ")"), [])
  else if c.mqtt_password.length > MQTT_PASSWORD_MAX_LEN then
    (Except.error ("MQTT password too long (" ++ toString c.mqtt_password.length ++
      " chars, max " ++ toString MQTT_PASSWORD_MAX_LEN ++ ")"), [])
  else if (validate_device_id c.device_id).1 = false then
    (Except.error ("Invalid device ID: " ++ (validate_device_id c.device_id).2), [])
  else if (dumpsConfig c).length > QR_MAX_PAYLOAD_BYTES then
    (Except.error (configSizeErrorMsg c (dumpsConfig c).length), [])
  else
    (Except.ok (dumpsConfig c), cliEncodeEvents (dumpsConfig c) showFlag saveFlag)

/-- The conjunction of every field-level check `generate_config_qr` runs
before serializing (`generate_qr.py` lines 232-262). -/
def cliValidatorsPass (c : DeviceConfig) : Bool :=
  (validate_wifi_ssid c.wifi_ssid).1 &&
  (validate_wifi_password c.wifi_password).1 &&
  (validate_mqtt_host c.mqtt_host).1 &&
  decide (c.mqtt_host.length ≤ MQTT_HOST_MAX_LEN) &&
  (validate_mqtt_port c.mqtt_port).1 &&
  decide (c.mqtt_username.length ≤ MQTT_USERNAME_MAX_LEN) &&
  decide (c.mqtt_password.length ≤ MQTT_PASSWORD_MAX_LEN) &&
  (validate_device_id c.device_id).1

/-! ## The HTTP service (`api.py`) -/

/-- Pydantic validation of `ConfigQRRequest` (`api.py` lines 77-153):
`Field` bounds on `wifi_ssid` (1-32), `wifi_password` (8-64) and
`mqtt_port` (1-65535) plus the three field validators; `mqtt_username`,
`mqtt_password` and `device_id` carry no constraint at all. -/
def configRequestAccepted (c : DeviceConfig) : Bool :=
  decide (1 ≤ c.wifi_ssid.length ∧ c.wifi_ssid.length ≤ 32) &&
  (validate_wifi_ssid c.wifi_ssid).1 &&
  decide (8 ≤ c.wifi_password.length ∧ c.wifi_password.length ≤ 64) &&
  (validate_wifi_password c.wifi_password).1 &&
  (validate_mqtt_host c.mqtt_host).1 &&
  decide (1 ≤ c.mqtt_port ∧ c.mqtt_port ≤ 65535)

/-- The size-guard detail string of `POST /generate/config`
(`api.py` lines 333-337): total size against the maximum, nothing else. -/
def apiConfigSizeDetail (n : Nat) : String :=
  "Config JSON too large (" ++ toString n ++ " bytes, max 220)"

/-- `POST /generate/config` (`api.py` lines 279-372): pydantic
validation, then build, serialize, size check, encode. Errors carry the
HTTP status and detail string. -/
def api_generate_config_qr (c : DeviceConfig) :
    Except (Nat × String) String × List QREvent :=
  if configRequestAccepted c = false then
    (Except.error (422, "request validation failed"), [])
  else if (dumpsConfig c).length > 220 then
    (Except.error (400, apiConfigSizeDetail (dumpsConfig c).length), [])
  else
    (Except.ok (dumpsConfig c),
     [QREvent.qrConstruct, QREvent.qrAddData (dumpsConfig c), QREvent.qrMake,
      QREvent.qrMakeImage])

/-- Pydantic validation of `QRGenerateRequest` (`api.py` lines 42-74):
`Field` bounds on `description` (1-64) and `labels` (1-10 items) plus the
`validate_labels` field validator. -/
def metadataRequestAccepted (description : String) (labels : List String) : Bool :=
  decide (1 ≤ description.length ∧ description.length ≤ 64) &&
  decide (1 ≤ labels.length ∧ labels.length ≤ 10) &&
  (validate_labels labels).1

/-- Body of the `/generate` handler once a test id is fixed
(`api.py` lines 229-271): re-validate the description, build, serialize,
encode — with no size check. -/
def apiMetadataBody (test_id description : String) (labels : List String) :
    Except (Nat × String) (String × String) × List QREvent :=
  if (validate_description description).1 = false then
    (Except.error (400, "Invalid description: " ++ (validate_description description).2), [])
  else
    (Except.ok (test_id, dumpsMetadata test_id description labels),
     [QREvent.qrConstruct, QREvent.qrAddData (dumpsMetadata test_id description labels),
      QREvent.qrMake, QREvent.qrMakeImage])

/-- `POST /generate` (`api.py` lines 194-276): pydantic validation, then
the test-id resolution (`if request.test_id:` is false for both `None`
and the empty string, in which case an id is generated), then the body. -/
def api_generate_qr (description : String) (labels : List String)
    (test_id : Option String) (pick : Nat → Fin uuidAlphabet.length) :
    Except (Nat × String) (String × String) × List QREvent :=
  if metadataRequestAccepted description labels = false then
    (Except.error (422, "request validation failed"), [])
  else
    match test_id with
    | some t =>
      if t ≠ "" then
        if (validate_test_id t).1 = false then
          (Except.error (400, "Invalid test_id: " ++ (validate_test_id t).2), [])
        else apiMetadataBody t description labels
      else apiMetadataBody (generate_short_uuid pick 8) description labels
    | none => apiMetadataBody (generate_short_uuid pick 8) description labels

/-! ## The display-masking step of `generate_config_qr`
(`generate_qr.py` lines 322-326), with Python's reference semantics for
nested dicts made explicit

`config_data` holds references to the two nested dicts built at lines
268-278. `config_data.copy()` is a shallow copy: the copy holds the same
two references. The subsequent item assignments go through those
references, so they update the shared heap cells. -/

/-- The heap cell behind `config_data["wifi"]`. -/
structure WifiDict where
  ssid : String
  password : String
deriving DecidableEq, Repr

/-- The heap cell behind `config_data["mqtt"]`. -/
structure MqttDict where
  host : String
  port : Int
  username : String
  password : String
  device_id : String
deriving DecidableEq, Repr

/-- The heap of nested-dict cells, addressed by index. -/
structure ConfigHeap where
  wifiCells : List WifiDict
  mqttCells : List MqttDict
deriving DecidableEq, Repr

/-- A top-level config dict value: its scalar entries plus references to
the two nested dicts. -/
structure ConfigDict where
  typeEntry : String
  versionEntry : String
  wifiRef : Nat
  mqttRef : Nat
deriving DecidableEq, Repr

/-- Point update of a list cell. -/
def modifyAt {α : Type} (f : α → α) : Nat → List α → List α
  | _, [] => []
  | 0, x :: xs => f x :: xs
  | n + 1, x :: xs => x :: modifyAt f n xs

/-- Dereference a wifi cell (a fresh empty dict if the address dangles,
which never happens in the modelled program). -/
def getWifi (h : ConfigHeap) (r : Nat) : WifiDict :=
  h.wifiCells.getD r ⟨"", ""⟩

/-- Dereference an mqtt cell. -/
def getMqtt (h : ConfigHeap) (r : Nat) : MqttDict :=
  h.mqttCells.getD r ⟨"", 0, "", "", ""⟩

/-- Building `config_data` (lines 265-279) allocates the two nested
dicts and a top-level dict referring to them. -/
def buildConfigData (c : DeviceConfig) : ConfigHeap × ConfigDict :=
  (⟨[⟨c.wifi_ssid, c.wifi_password⟩],
    [⟨c.mqtt_host, c.mqtt_port, c.mqtt_username, c.mqtt_password, c.device_id⟩]⟩,
   ⟨"device_config", "1.0", 0, 0⟩)

/-- `dict.copy()`: a new top-level dict with the same entries — in
particular the same two references (a shallow copy). -/
def dictCopy (d : ConfigDict) : ConfigDict :=
  ⟨d.typeEntry, d.versionEntry, d.wifiRef, d.mqttRef⟩

/-- Lines 322-326: `config_display = config_data.copy()`, then
`config_display["wifi"]["password"] = "********"`, then the conditional
mqtt-password masking. Returns the updated heap and `config_display`. -/
def maskPasswordsForDisplay (h : ConfigHeap) (config_data : ConfigDict) :
    ConfigHeap × ConfigDict :=
  let config_display := dictCopy config_data
  let h1 : ConfigHeap :=
    ⟨modifyAt (fun w => ⟨w.ssid, "********"⟩) config_display.wifiRef h.wifiCells,
     h.mqttCells⟩
  let h2 : ConfigHeap :=
    if (getMqtt h1 config_display.mqttRef).password ≠ "" then
      ⟨h1.wifiCells,
       modifyAt (fun m => ⟨m.host, m.port, m.username, "********", m.device_id⟩)
         config_display.mqttRef h1.mqttCells⟩
    else h1
  (h2, config_display)

/-! ## Definitions following the spec's words, for the refinement claims -/

/-- Follows the spec (§4.1): a DNS label — 1-63 characters, alphanumeric
plus hyphens, not starting or ending with a hyphen. -/
def specDnsLabel (l : List Char) : Bool :=
  decide (1 ≤ l.length ∧ l.length ≤ 63) && l.all isAlnumHyphen &&
  (match l.head? with
   | some c => decide (c ≠ '-')
   | none => false) &&
  (match l.getLast? with
   | some c => decide (c ≠ '-')
   | none => false)

/-- Follows the spec (§4.1): a DNS hostname — dot-separated labels. -/
def specDnsHostname (s : String) : Bool :=
  (splitOnDots s.data).all specDnsLabel

/-- Follows the spec (§4.1): an IPv4 octet — a 1-3 digit decimal numeral
with value 0-255. -/
def specIPv4Octet (p : List Char) : Bool :=
  decide (1 ≤ p.length ∧ p.length ≤ 3) && p.all isDigitAscii &&
  decide (p.foldl (fun acc c => 10 * acc + (c.toNat - 48)) 0 ≤ 255)

/-- Follows the spec (§4.1): a dotted-quad IPv4 address — four octets. -/
def specIPv4Address (s : String) : Bool :=
  match splitOnDots s.data with
  | [a, b, c, d] => specIPv4Octet a && specIPv4Octet b && specIPv4Octet c && specIPv4Octet d
  | _ => false

/-- Either of the spec's two host grammars. -/
def specHostOk (s : String) : Bool :=
  specDnsHostname s || specIPv4Address s

/-- Follows the spec (§6): the canonical metadata wire payload
`\x7b"test_id":"...","description":"...","labels":["...",...]\x7d`,
compact form, key order as listed. -/
def specMetadataWireForm (test_id description : String) (labels : List String) : String :=
  "\x7b\"test_id\":" ++ jsonString test_id ++
  ",\"description\":" ++ jsonString description ++
  ",\"labels\":[" ++ String.intercalate "," (labels.map jsonString) ++ "]\x7d"

/-- `frag` occurs verbatim inside `s`. -/
def containsFrag (frag s : String) : Prop :=
  ∃ pre post : String, s = pre ++ frag ++ post

/-- A message itemizes each config field's actual length against that
field's allowed maximum: all six `"  {name}: {actual}/{max} chars"`
lines occur in it. -/
def hasFieldBreakdown (c : DeviceConfig) (msg : String) : Prop :=
  containsFrag (fieldUsageLine "WiFi SSID" c.wifi_ssid.length WIFI_SSID_MAX_LEN) msg ∧
  containsFrag (fieldUsageLine "WiFi Password" c.wifi_password.length WIFI_PASSWORD_MAX_LEN) msg ∧
  containsFrag (fieldUsageLine "MQTT Host" c.mqtt_host.length MQTT_HOST_MAX_LEN) msg ∧
  containsFrag (fieldUsageLine "MQTT Username" c.mqtt_username.length MQTT_USERNAME_MAX_LEN) msg ∧
  containsFrag (fieldUsageLine "MQTT Password" c.mqtt_password.length MQTT_PASSWORD_MAX_LEN) msg ∧
  containsFrag (fieldUsageLine "Device ID" c.device_id.length DEVICE_ID_MAX_LEN) msg

/-! ## Concrete inputs used by the counterexamples and witnesses -/

/-- Every field at its validator maximum (SSID 16, password 16, host 40,
username 10, password 10, device id 10, port 65535): all field-level
validators pass, and the compact serialization is 250 bytes. -/
def maxedConfig : DeviceConfig :=
  ⟨"AAAAAAAAAAAAAAAA", "BBBBBBBBBBBBBBBB",
   "mmmmmmmmmmmmmmmmmmmmmmmmmmmmmmmmmmmmmmmm", 65535,
   "uuuuuuuuuu", "pppppppppp", "dddddddddd"⟩

/-- A config with an empty device id: the CLI rejects it, the API
request model accepts it. -/
def emptyIdConfig : DeviceConfig :=
  ⟨"MyNetwork", "SecurePass1", "mqtt.example.com", 1883, "", "", ""⟩

/-- The README-style example config used as the C9 failing input. -/
def exampleConfig : DeviceConfig :=
  ⟨"TestNet", "password123", "192.168.1.100", 1883, "user1", "secret", "m3logger"⟩

/-- An oversize but field-valid metadata record: description of 64
characters and four 32-character labels, serializing to 254 bytes. -/
def bigDescription : String := String.mk (List.replicate 64 'x')

/-- The labels of the oversize metadata record. -/
def bigLabels : List String := List.replicate 4 (String.mk (List.replicate 32 'y'))

/-! ## Helper lemmas -/

/-- Characters with equal code points are equal. -/
theorem char_toNat_inj {a b : Char} (h : a.toNat = b.toNat) : a = b :=
  Char.ext (UInt32.ext h)

/-- Every character of an occurring fragment occurs in the message. -/
theorem mem_of_containsFrag {frag s : String} (h : containsFrag frag s) :
    ∀ ch ∈ frag.data, ch ∈ s.data := by
  obtain ⟨pre, post, rfl⟩ := h
  intro ch hch
  simp [String.data_append]
  tauto

/-- Every position of the uuid alphabet holds an unambiguous
alphanumeric character of the 32-symbol set. -/
theorem uuidAlphabet_get_ok : ∀ j : Fin uuidAlphabet.length,
    uuidAlphabet.get j ∈ uuidAlphabet ∧ uuidAlphabet.get j ∉ "01IOl".data := by
  decide

/-- Every character of the uuid alphabet is ASCII alphanumeric. -/
theorem uuidAlphabet_get_alnum : ∀ j : Fin uuidAlphabet.length,
    isAlnumAscii (uuidAlphabet.get j) = true := by
  decide

/-- Characterization of `validate_wifi_ssid`. -/
theorem validate_wifi_ssid_iff (s : String) :
    (validate_wifi_ssid s).1 = true ↔
      (1 ≤ s.length ∧ s.length ≤ WIFI_SSID_MAX_LEN) ∧ s.data.all isPrintableAscii = true := by
  unfold validate_wifi_ssid
  split_ifs with h1 h2 <;> simp_all

/-- Characterization of `validate_wifi_password`. -/
theorem validate_wifi_password_iff (s : String) :
    (validate_wifi_password s).1 = true ↔
      (8 ≤ s.length ∧ s.length ≤ 16) ∧ s.data.all isPrintableAscii = true := by
  unfold validate_wifi_password
  split_ifs with h1 h2 <;> simp_all

/-- Characterization of `validate_mqtt_port`. -/
theorem validate_mqtt_port_iff (p : Int) :
    (validate_mqtt_port p).1 = true ↔ 1 ≤ p ∧ p ≤ 65535 := by
  unfold validate_mqtt_port
  split_ifs with h1 <;> simp_all

/-- Characterization of `validate_device_id`. -/
theorem validate_device_id_iff (s : String) :
    (validate_device_id s).1 = true ↔
      1 ≤ s.length ∧ s.length ≤ DEVICE_ID_MAX_LEN := by
  unfold validate_device_id
  split_ifs with h1 <;> simp_all

/-- Characterization of `validate_test_id`. -/
theorem validate_test_id_iff (s : String) :
    (validate_test_id s).1 = true ↔
      s.length = 8 ∧ s.data.all isAlnumAscii = true := by
  unfold validate_test_id
  split_ifs with h1 h2 <;> simp_all

/-- Characterization of `validate_description`. -/
theorem validate_description_iff (s : String) :
    (validate_description s).1 = true ↔ 1 ≤ s.length ∧ s.length ≤ 64 := by
  unfold validate_description
  split_ifs with h1 h2 <;> simp_all
  omega

/-- Characterization of `validate_labels`. -/
theorem validate_labels_iff (ls : List String) :
    (validate_labels ls).1 = true ↔
      (1 ≤ ls.length ∧ ls.length ≤ 10) ∧ ∀ l ∈ ls, 1 ≤ l.length ∧ l.length ≤ 32 := by
  unfold validate_labels
  split_ifs with h1 h2
  · simp_all
  · simp_all
  · cases hf : ls.find? (fun l => l.length = 0 || l.length > 32) with
    | none =>
      have hall := List.find?_eq_none.mp hf
      simp only [hf]
      simp only [Bool.or_eq_true, decide_eq_true_eq, not_or] at hall
      constructor
      · intro _
        refine ⟨⟨by omega, by omega⟩, ?_⟩
        intro l hl
        have := hall l hl
        omega
      · intro _
        trivial
    | some l =>
      have hp := List.find?_some hf
      have hmem := List.mem_of_find?_eq_some hf
      simp only [Bool.or_eq_true, decide_eq_true_eq] at hp
      simp only [hf]
      constructor
      · intro hcontra
        split_ifs at hcontra
      · intro hy
        have := hy.2 l hmem
        omega

/-- The accept bit of `validate_mqtt_host` is the disjunction of the two
regex matches. -/
theorem validate_mqtt_host_fst (h : String) :
    (validate_mqtt_host h).1 =
      (pyDollarMatch dnsCoreMatch h || pyDollarMatch ipv4CoreMatch h) := by
  unfold validate_mqtt_host
  split_ifs with hh <;> simp_all

/-! ## Claim C1 -/

/-- C1 is false: `maxedConfig` passes every field-level validator yet its
compact serialization is 250 bytes, over the 220-byte budget, so the
validator maxima do not make the size guard unreachable. -/
theorem c1_counterexample :
    ¬ (∀ c : DeviceConfig, cliValidatorsPass c = true →
        (dumpsConfig c).length ≤ QR_MAX_PAYLOAD_BYTES) := by
  intro h
  exact absurd (h maxedConfig (by decide)) (by decide)

/-- C1 amended: there are device-config inputs passing every field-level
validator whose compact serialization exceeds 220 bytes, so the
size-guard rejection branch of `generate_config_qr` is reachable under
those preconditions (it is a genuine backstop, not dead code). -/
theorem c1_theorem :
    ∃ c : DeviceConfig, cliValidatorsPass c = true ∧
      (dumpsConfig c).length > QR_MAX_PAYLOAD_BYTES ∧
      (generate_config_qr c true false).1 =
        Except.error (configSizeErrorMsg c (dumpsConfig c).length) ∧
      (generate_config_qr c true false).2 = [] :=
  ⟨maxedConfig, by decide, by decide, rfl, rfl⟩

/-! ## Claim C3 -/

/-- C3 is false: an oversize (254-byte) metadata payload whose fields all
pass their validators is not rejected — both the CLI path and the HTTP
path serialize it and invoke the encoder; neither checks any size
maximum for metadata. -/
theorem c3_counterexample :
    (dumpsMetadata "A3F9K2M7" bigDescription bigLabels).length > QR_MAX_PAYLOAD_BYTES ∧
    (generate_qr_code "A3F9K2M7" bigDescription bigLabels true false).1 =
      Except.ok (dumpsMetadata "A3F9K2M7" bigDescription bigLabels) ∧
    QREvent.qrConstruct ∈ (generate_qr_code "A3F9K2M7" bigDescription bigLabels true false).2 ∧
    (api_generate_qr bigDescription bigLabels (some "A3F9K2M7") constPick).1 =
      Except.ok ("A3F9K2M7", dumpsMetadata "A3F9K2M7" bigDescription bigLabels) ∧
    QREvent.qrConstruct ∈ (api_generate_qr bigDescription bigLabels (some "A3F9K2M7") constPick).2 :=
  ⟨by decide, rfl, by decide, rfl, by decide⟩

/-! ## Claim C4 -/

/-- C4 is false: the empty device id passes the HTTP request model (which
puts no constraint on `device_id`, `mqtt_username`, `mqtt_password` or
the host length) but fails the CLI's `validate_device_id`, so the two
surfaces do not accept identically. -/
theorem c4_counterexample :
    cliValidatorsPass emptyIdConfig = false ∧
    configRequestAccepted emptyIdConfig = true ∧
    (generate_config_qr emptyIdConfig true false).1 =
      Except.error "Invalid device ID: Device ID must be 1-10 characters" ∧
    (api_generate_config_qr emptyIdConfig).1 = Except.ok (dumpsConfig emptyIdConfig) :=
  ⟨by decide, by decide, rfl, rfl⟩

/-! ## Claim C5 -/

/-- C5 is false in its symbol count: the generator's alphabet
(uppercase letters and digits minus `0`, `O`, `1`, `I`; removing the
lowercase `l` is vacuous since it is not in the base set) has exactly 32
distinct symbols, not 31. -/
theorem c5_counterexample :
    uuidAlphabet.Nodup ∧ uuidAlphabet.length = 32 ∧ uuidAlphabet.length ≠ 31 :=
  ⟨by decide, by decide, by decide⟩

/-- C5 amended: every generated string has exactly the requested number
of characters, each drawn from the fixed 32-symbol alphabet (uppercase
letters and digits with `0`, `O`, `1`, `I` removed), so no generated id
contains `0`, `O`, `1`, `I` or `l`. -/
theorem c5_theorem : ∀ (pick : Nat → Fin uuidAlphabet.length) (n : Nat),
    (generate_short_uuid pick n).length = n ∧
    uuidAlphabet.length = 32 ∧
    (∀ ch ∈ (generate_short_uuid pick n).data, ch ∈ uuidAlphabet ∧ ch ∉ "01IOl".data) := by
  intro pick n
  refine ⟨by simp [generate_short_uuid, String.length], by decide, ?_⟩
  intro ch hch
  simp only [generate_short_uuid, String.mk] at hch
  obtain ⟨i, -, rfl⟩ := List.mem_map.mp hch
  exact uuidAlphabet_get_ok (pick i)

/-- Witness for C5's amended theorem at the constant choice stream and
length 8: the membership hypothesis is discharged at the character `A`. -/
theorem c5_witness :
    (generate_short_uuid constPick 8).length = 8 ∧
    'A' ∈ uuidAlphabet ∧ 'A' ∉ "01IOl".data := by
  have h := c5_theorem constPick 8
  exact ⟨h.1, (h.2.2 'A' (by decide)).1, (h.2.2 'A' (by decide)).2⟩

/-! ## Claim C9 -/

/-- C9 fails on the code (`config_data.copy()` is shallow): after the
display-masking step, the wifi dict still referenced by `config_data` has
had its password overwritten with `********`, and likewise the mqtt dict
(its password `secret` is non-empty), so the record built for encoding is
mutated. The serialized JSON is unaffected only because it was produced
before this step. -/
theorem c9_theorem :
    exampleConfig.wifi_password = "password123" ∧
    exampleConfig.mqtt_password = "secret" ∧
    (getWifi (maskPasswordsForDisplay (buildConfigData exampleConfig).1
        (buildConfigData exampleConfig).2).1
      (buildConfigData exampleConfig).2.wifiRef).password = "********" ∧
    (getMqtt (maskPasswordsForDisplay (buildConfigData exampleConfig).1
        (buildConfigData exampleConfig).2).1
      (buildConfigData exampleConfig).2.mqttRef).password = "********" ∧
    "********" ≠ exampleConfig.wifi_password :=
  ⟨rfl, rfl, rfl, rfl, by decide⟩

/-! ## Claim C10 -/

/-- C10: every id generated with the default length of 8 passes
`validate_test_id` — the answer is `(True, "")` for every choice of the
random stream, because the alphabet is alphanumeric and the length is
exactly the required 8. -/
theorem c10_theorem : ∀ pick : Nat → Fin uuidAlphabet.length,
    validate_test_id (generate_short_uuid pick 8) = (true, "") := by
  intro pick
  have hlen : (generate_short_uuid pick 8).length = 8 := by
    simp [generate_short_uuid, String.length]
  have hall : (generate_short_uuid pick 8).data.all isAlnumAscii = true := by
    simp only [generate_short_uuid, List.all_eq_true]
    intro x hx
    obtain ⟨i, -, rfl⟩ := List.mem_map.mp hx
    exact uuidAlphabet_get_alnum (pick i)
  unfold validate_test_id
  simp [hlen, hall]

/-! ## Claim C7 -/

/-- C7: for every valid metadata record, build-and-serialize is
deterministic — the serialized payload does not depend on the run (here:
on the display/save flags) — and equals the spec's canonical compact wire
form with keys in the order `test_id`, `description`, `labels`, in both
the CLI path and the HTTP path. -/
theorem c7_theorem : ∀ (t d : String) (ls : List String) (sf sv sf2 sv2 : Bool),
    (validate_test_id t).1 = true → (validate_description d).1 = true →
    (validate_labels ls).1 = true →
    (generate_qr_code t d ls sf sv).1 = Except.ok (specMetadataWireForm t d ls) ∧
    (generate_qr_code t d ls sf sv).1 = (generate_qr_code t d ls sf2 sv2).1 ∧
    (apiMetadataBody t d ls).1 = Except.ok (t, specMetadataWireForm t d ls) := by
  intro t d ls sf sv sf2 sv2 h1 h2 h3
  have hm : dumpsMetadata t d ls = specMetadataWireForm t d ls := rfl
  unfold generate_qr_code apiMetadataBody
  simp [h1, h2, h3, hm]

/-- Witness for C7 at the spec's own scenario record. -/
theorem c7_witness :
    (generate_qr_code "A3F9K2M7" "walking_outdoor" ["walking", "outdoor"] true false).1 =
      Except.ok (specMetadataWireForm "A3F9K2M7" "walking_outdoor" ["walking", "outdoor"]) ∧
    (apiMetadataBody "A3F9K2M7" "walking_outdoor" ["walking", "outdoor"]).1 =
      Except.ok ("A3F9K2M7", specMetadataWireForm "A3F9K2M7" "walking_outdoor" ["walking", "outdoor"]) := by
  have h := c7_theorem "A3F9K2M7" "walking_outdoor" ["walking", "outdoor"]
    true false true true (by decide) (by decide) (by decide)
  exact ⟨h.1, h.2.2⟩

/-- C3 amended: neither metadata path checks any size maximum — whenever
the field validators pass, both the CLI path and the HTTP path serialize
and invoke the encoder, even when the payload exceeds 220 bytes. -/
theorem c3_theorem : ∀ (t d : String) (ls : List String) (sf sv : Bool)
    (pick : Nat → Fin uuidAlphabet.length),
    (validate_test_id t).1 = true → (validate_description d).1 = true →
    (validate_labels ls).1 = true →
    (generate_qr_code t d ls sf sv).1 = Except.ok (dumpsMetadata t d ls) ∧
    QREvent.qrConstruct ∈ (generate_qr_code t d ls sf sv).2 ∧
    (api_generate_qr d ls (some t) pick).1 = Except.ok (t, dumpsMetadata t d ls) ∧
    QREvent.qrConstruct ∈ (api_generate_qr d ls (some t) pick).2 := by
  intro t d ls sf sv pick h1 h2 h3
  have hd := (validate_description_iff d).mp h2
  have hl := (validate_labels_iff ls).mp h3
  have ht : t ≠ "" := by
    intro he
    have := (validate_test_id_iff t).mp h1
    rw [he] at this
    simp [String.length] at this
  have hacc : metadataRequestAccepted d ls = true := by
    unfold metadataRequestAccepted
    simp only [Bool.and_eq_true, decide_eq_true_eq]
    exact ⟨⟨⟨hd.1, hd.2⟩, hl.1⟩, h3⟩
  unfold generate_qr_code api_generate_qr apiMetadataBody
  simp [h1, h2, h3, hacc, ht, cliEncodeEvents]

/-- Witness for C3's amended theorem at the oversize metadata record. -/
theorem c3_witness :
    (generate_qr_code "A3F9K2M7" bigDescription bigLabels false true).1 =
      Except.ok (dumpsMetadata "A3F9K2M7" bigDescription bigLabels) ∧
    QREvent.qrConstruct ∈ (generate_qr_code "A3F9K2M7" bigDescription bigLabels false true).2 ∧
    (api_generate_qr bigDescription bigLabels (some "A3F9K2M7") constPick).1 =
      Except.ok ("A3F9K2M7", dumpsMetadata "A3F9K2M7" bigDescription bigLabels) ∧
    QREvent.qrConstruct ∈ (api_generate_qr bigDescription bigLabels (some "A3F9K2M7") constPick).2 :=
  c3_theorem "A3F9K2M7" bigDescription bigLabels false true constPick
    (by decide) (by decide) (by decide)

/-! ## Claim C6 -/

/-- C6: whenever the serialized config exceeds the 220-byte maximum, both
the CLI path and the HTTP path reject without performing any
qrcode-library call — no `qrcode.QRCode` construction, no `add_data`, no
image. (When the field validators fail first, the rejection is even
earlier; in every case the event list is empty and the result is an
error.) -/
theorem c6_theorem : ∀ (c : DeviceConfig) (sf sv : Bool),
    (dumpsConfig c).length > QR_MAX_PAYLOAD_BYTES →
    ((generate_config_qr c sf sv).2 = [] ∧
      ∃ m, (generate_config_qr c sf sv).1 = Except.error m) ∧
    ((api_generate_config_qr c).2 = [] ∧
      ∃ e, (api_generate_config_qr c).1 = Except.error e) := by
  intro c sf sv h
  constructor
  · unfold generate_config_qr
    split_ifs with h1 h2 h3 h4 h5 h6 h7 h8
    all_goals exact ⟨rfl, _, rfl⟩
  · unfold api_generate_config_qr
    split_ifs with g1 g2
    any_goals exact ⟨rfl, _, rfl⟩
    have h220 : QR_MAX_PAYLOAD_BYTES = 220 := rfl
    rw [h220] at h
    exact absurd h g2

/-- Witness for C6 at the 250-byte all-maxima config. -/
theorem c6_witness :
    ((generate_config_qr maxedConfig true true).2 = [] ∧
      ∃ m, (generate_config_qr maxedConfig true true).1 = Except.error m) ∧
    ((api_generate_config_qr maxedConfig).2 = [] ∧
      ∃ e, (api_generate_config_qr maxedConfig).1 = Except.error e) :=
  c6_theorem maxedConfig true true (by decide)

/-! ## Claim C2 -/

/-- C2 is false for the HTTP path: the oversize all-maxima config is
rejected by `POST /generate/config` with a detail string that reports
only the total byte count against the maximum — it contains no per-field
breakdown (the letter `W` of the first breakdown line does not even occur
in it). -/
theorem c2_counterexample :
    (dumpsConfig maxedConfig).length > QR_MAX_PAYLOAD_BYTES ∧
    (api_generate_config_qr maxedConfig).1 =
      Except.error (400, apiConfigSizeDetail 250) ∧
    ¬ hasFieldBreakdown maxedConfig (apiConfigSizeDetail 250) := by
  refine ⟨by decide, rfl, ?_⟩
  intro hbd
  have hW := mem_of_containsFrag hbd.1 'W' (by decide)
  exact absurd hW (by decide)

/-- C2 amended: on a payload over 220 bytes, the CLI size guard fails
with the per-field breakdown (each field's actual length against its
maximum), while the HTTP size guard fails with only the total actual
versus maximum byte count. -/
theorem c2_theorem : ∀ (c : DeviceConfig) (sf sv : Bool),
    (dumpsConfig c).length > QR_MAX_PAYLOAD_BYTES →
    (cliValidatorsPass c = true →
      generate_config_qr c sf sv =
        (Except.error (configSizeErrorMsg c (dumpsConfig c).length), []) ∧
      hasFieldBreakdown c (configSizeErrorMsg c (dumpsConfig c).length)) ∧
    (configRequestAccepted c = true →
      api_generate_config_qr c =
        (Except.error (400, apiConfigSizeDetail (dumpsConfig c).length), [])) := by
  intro c sf sv h
  constructor
  · intro hv
    unfold cliValidatorsPass at hv
    simp only [Bool.and_eq_true, decide_eq_true_eq] at hv
    obtain ⟨⟨⟨⟨⟨⟨⟨v1, v2⟩, v3⟩, v4⟩, v5⟩, v6⟩, v7⟩, v8⟩ := hv
    constructor
    · unfold generate_config_qr
      simp [v1, v2, v3, v5, v8, Nat.not_lt.mpr v4, Nat.not_lt.mpr v6, Nat.not_lt.mpr v7, h]
    · refine ⟨?_, ?_, ?_, ?_, ?_, ?_⟩
      · exact ⟨"Config JSON too large (" ++ toString (dumpsConfig c).length ++
          " bytes, max " ++ toString QR_MAX_PAYLOAD_BYTES ++ ")\nCurrent field usage:\n",
          fieldUsageLine "WiFi Password" c.wifi_password.length WIFI_PASSWORD_MAX_LEN ++
          fieldUsageLine "MQTT Host" c.mqtt_host.length MQTT_HOST_MAX_LEN ++
          fieldUsageLine "MQTT Username" c.mqtt_username.length MQTT_USERNAME_MAX_LEN ++
          fieldUsageLine "MQTT Password" c.mqtt_password.length MQTT_PASSWORD_MAX_LEN ++
          fieldUsageLine "Device ID" c.device_id.length DEVICE_ID_MAX_LEN ++
          ("\nNote: You cannot max out all fields simultaneously.\n" ++
           "Reduce longest fields (MQTT host, SSID, or passwords) to fit."),
          by simp only [configSizeErrorMsg, configFieldUsage, String.append_assoc]⟩
      · exact ⟨"Config JSON too large (" ++ toString (dumpsConfig c).length ++
          " bytes, max " ++ toString QR_MAX_PAYLOAD_BYTES ++ ")\nCurrent field usage:\n" ++
          fieldUsageLine "WiFi SSID" c.wifi_ssid.length WIFI_SSID_MAX_LEN,
          fieldUsageLine "MQTT Host" c.mqtt_host.length MQTT_HOST_MAX_LEN ++
          fieldUsageLine "MQTT Username" c.mqtt_username.length MQTT_USERNAME_MAX_LEN ++
          fieldUsageLine "MQTT Password" c.mqtt_password.length MQTT_PASSWORD_MAX_LEN ++
          fieldUsageLine "Device ID" c.device_id.length DEVICE_ID_MAX_LEN ++
          ("\nNote: You cannot max out all fields simultaneously.\n" ++
           "Reduce longest fields (MQTT host, SSID, or passwords) to fit."),
          by simp only [configSizeErrorMsg, configFieldUsage, String.append_assoc]⟩
      · exact ⟨"Config JSON too large (" ++ toString (dumpsConfig c).length ++
          " bytes, max " ++ toString QR_MAX_PAYLOAD_BYTES ++ ")\nCurrent field usage:\n" ++
          fieldUsageLine "WiFi SSID" c.wifi_ssid.length WIFI_SSID_MAX_LEN ++
          fieldUsageLine "WiFi Password" c.wifi_password.length WIFI_PASSWORD_MAX_LEN,
          fieldUsageLine "MQTT Username" c.mqtt_username.length MQTT_USERNAME_MAX_LEN ++
          fieldUsageLine "MQTT Password" c.mqtt_password.length MQTT_PASSWORD_MAX_LEN ++
          fieldUsageLine "Device ID" c.device_id.length DEVICE_ID_MAX_LEN ++
          ("\nNote: You cannot max out all fields simultaneously.\n" ++
           "Reduce longest fields (MQTT host, SSID, or passwords) to fit."),
          by simp only [configSizeErrorMsg, configFieldUsage, String.append_assoc]⟩
      · exact ⟨"Config JSON too large (" ++ toString (dumpsConfig c).length ++
          " bytes, max " ++ toString QR_MAX_PAYLOAD_BYTES ++ ")\nCurrent field usage:\n" ++
          fieldUsageLine "WiFi SSID" c.wifi_ssid.length WIFI_SSID_MAX_LEN ++
          fieldUsageLine "WiFi Password" c.wifi_password.length WIFI_PASSWORD_MAX_LEN ++
          fieldUsageLine "MQTT Host" c.mqtt_host.length MQTT_HOST_MAX_LEN,
          fieldUsageLine "MQTT Password" c.mqtt_password.length MQTT_PASSWORD_MAX_LEN ++
          fieldUsageLine "Device ID" c.device_id.length DEVICE_ID_MAX_LEN ++
          ("\nNote: You cannot max out all fields simultaneously.\n" ++
           "Reduce longest fields (MQTT host, SSID, or passwords) to fit."),
          by simp only [configSizeErrorMsg, configFieldUsage, String.append_assoc]⟩
      · exact ⟨"Config JSON too large (" ++ toString (dumpsConfig c).length ++
          " bytes, max " ++ toString QR_MAX_PAYLOAD_BYTES ++ ")\nCurrent field usage:\n" ++
          fieldUsageLine "WiFi SSID" c.wifi_ssid.length WIFI_SSID_MAX_LEN ++
          fieldUsageLine "WiFi Password" c.wifi_password.length WIFI_PASSWORD_MAX_LEN ++
          fieldUsageLine "MQTT Host" c.mqtt_host.length MQTT_HOST_MAX_LEN ++
          fieldUsageLine "MQTT Username" c.mqtt_username.length MQTT_USERNAME_MAX_LEN,
          fieldUsageLine "Device ID" c.device_id.length DEVICE_ID_MAX_LEN ++
          ("\nNote: You cannot max out all fields simultaneously.\n" ++
           "Reduce longest fields (MQTT host, SSID, or passwords) to fit."),
          by simp only [configSizeErrorMsg, configFieldUsage, String.append_assoc]⟩
      · exact ⟨"Config JSON too large (" ++ toString (dumpsConfig c).length ++
          " bytes, max " ++ toString QR_MAX_PAYLOAD_BYTES ++ ")\nCurrent field usage:\n" ++
          fieldUsageLine "WiFi SSID" c.wifi_ssid.length WIFI_SSID_MAX_LEN ++
          fieldUsageLine "WiFi Password" c.wifi_password.length WIFI_PASSWORD_MAX_LEN ++
          fieldUsageLine "MQTT Host" c.mqtt_host.length MQTT_HOST_MAX_LEN ++
          fieldUsageLine "MQTT Username" c.mqtt_username.length MQTT_USERNAME_MAX_LEN ++
          fieldUsageLine "MQTT Password" c.mqtt_password.length MQTT_PASSWORD_MAX_LEN,
          "\nNote: You cannot max out all fields simultaneously.\n" ++
           "Reduce longest fields (MQTT host, SSID, or passwords) to fit.",
          by simp only [configSizeErrorMsg, configFieldUsage, String.append_assoc]⟩
  · intro ha
    unfold api_generate_config_qr
    have h220 : (dumpsConfig c).length > 220 := h
    simp [ha, h220]

/-- C4 amended: the CLI accepts exactly when the HTTP request model
accepts AND the four additional CLI-only bounds hold (host length at most
40, username at most 10, password at most 10, device id 1-10 characters);
both surfaces share the `wifi_ssid`, `wifi_password`, host-grammar and
port checks, but the HTTP path does not enforce the additional bounds, so
the two surfaces do not accept identically. -/
theorem c4_theorem : ∀ c : DeviceConfig,
    cliValidatorsPass c = true ↔
      (configRequestAccepted c = true ∧
       c.mqtt_host.length ≤ MQTT_HOST_MAX_LEN ∧
       c.mqtt_username.length ≤ MQTT_USERNAME_MAX_LEN ∧
       c.mqtt_password.length ≤ MQTT_PASSWORD_MAX_LEN ∧
       (validate_device_id c.device_id).1 = true) := by
  intro c
  unfold cliValidatorsPass configRequestAccepted
  simp only [Bool.and_eq_true, decide_eq_true_eq, validate_wifi_ssid_iff,
    validate_wifi_password_iff, validate_mqtt_port_iff, WIFI_SSID_MAX_LEN]
  constructor
  · rintro ⟨⟨⟨⟨⟨⟨⟨⟨⟨hs1a, hs1b⟩, hs2⟩, ⟨hp1a, hp1b⟩, hp2⟩, hh⟩, h40⟩, hport⟩, hu⟩, hpw⟩, hd⟩
    exact ⟨⟨⟨⟨⟨⟨⟨hs1a, by omega⟩, ⟨hs1a, hs1b⟩, hs2⟩, hp1a, by omega⟩,
      ⟨hp1a, hp1b⟩, hp2⟩, hh⟩, hport⟩, h40, hu, hpw, hd⟩
  · rintro ⟨⟨⟨⟨⟨⟨-, hs16, hsall⟩, -⟩, hp16, hpall⟩, hh⟩, hport⟩, h40, hu, hpw, hd⟩
    exact ⟨⟨⟨⟨⟨⟨⟨⟨hs16, hsall⟩, hp16, hpall⟩, hh⟩, h40⟩, hport⟩, hu⟩, hpw⟩, hd⟩

/-- Witness for C4's amended theorem at the empty-device-id config. -/
theorem c4_witness :
    cliValidatorsPass emptyIdConfig = true ↔
      (configRequestAccepted emptyIdConfig = true ∧
       emptyIdConfig.mqtt_host.length ≤ MQTT_HOST_MAX_LEN ∧
       emptyIdConfig.mqtt_username.length ≤ MQTT_USERNAME_MAX_LEN ∧
       emptyIdConfig.mqtt_password.length ≤ MQTT_PASSWORD_MAX_LEN ∧
       (validate_device_id emptyIdConfig.device_id).1 = true) :=
  c4_theorem emptyIdConfig

/-- Witness instance of C10 at the constant choice stream. -/
theorem c10_witness :
    validate_test_id (generate_short_uuid constPick 8) = (true, "") :=
  c10_theorem constPick

/-- Witness for C2's amended theorem at the 250-byte all-maxima config. -/
theorem c2_witness :
    generate_config_qr maxedConfig true false =
      (Except.error (configSizeErrorMsg maxedConfig (dumpsConfig maxedConfig).length), []) ∧
    hasFieldBreakdown maxedConfig (configSizeErrorMsg maxedConfig (dumpsConfig maxedConfig).length) ∧
    api_generate_config_qr maxedConfig =
      (Except.error (400, apiConfigSizeDetail (dumpsConfig maxedConfig).length), []) := by
  have h := c2_theorem maxedConfig true false (by decide)
  have h1 := h.1 (by decide)
  exact ⟨h1.1, h1.2, h.2 (by decide)⟩

/-- An alphanumeric-or-hyphen character other than the hyphen is
alphanumeric. -/
theorem isAlnumHyphen_iff (c : Char) :
    isAlnumHyphen c = true ∧ c ≠ '-' ↔ isAlnumAscii c = true := by
  unfold isAlnumHyphen
  constructor
  · rintro ⟨h1, h2⟩
    simp only [Bool.or_eq_true, decide_eq_true_eq] at h1
    rcases h1 with h | h
    · exact h
    · have h45 : ('-' : Char).toNat = 45 := rfl
      exact absurd (char_toNat_inj (h.trans h45.symm)) h2
  · intro h
    refine ⟨by simp [h], ?_⟩
    intro he
    rw [he] at h
    exact absurd h (by decide)

/-- The regex label language equals the spec label grammar: 1-63
characters, alphanumeric plus hyphens, not starting or ending with a
hyphen. -/
theorem dnsLabelMatch_eq_spec (l : List Char) : dnsLabelMatch l = specDnsLabel l := by
  cases l with
  | nil => rfl
  | cons c rest =>
    rcases List.eq_nil_or_concat rest with hr | ⟨l2, a, hr⟩
    · subst hr
      rw [Bool.eq_iff_iff]
      simp only [dnsLabelMatch, specDnsLabel, List.isEmpty_nil, Bool.true_or,
        Bool.and_true, List.all_cons, List.all_nil, List.head?_cons,
        List.getLast?_singleton, List.length_cons, List.length_nil,
        Bool.and_eq_true, decide_eq_true_eq]
      constructor
      · intro h
        have hh := (isAlnumHyphen_iff c).mpr h
        exact ⟨⟨⟨⟨by omega, by omega⟩, hh.1⟩, hh.2⟩, hh.2⟩
      · rintro ⟨⟨⟨-, h1⟩, h2⟩, -⟩
        exact (isAlnumHyphen_iff c).mp ⟨h1, h2⟩
    · subst hr
      rw [List.concat_eq_append, Bool.eq_iff_iff]
      have hcons : c :: (l2 ++ [a]) = (c :: l2) ++ [a] := rfl
      have hlast : (c :: (l2 ++ [a])).getLast? = some a := by
        rw [hcons]
        exact List.getLast?_concat _
      have hre : (l2 ++ [a] : List Char).isEmpty = false := by
        cases l2 <;> rfl
      have hdrop : (l2 ++ [a] : List Char).dropLast = l2 := List.dropLast_concat
      have hrlast : (l2 ++ [a] : List Char).getLast? = some a := List.getLast?_concat _
      simp only [dnsLabelMatch, specDnsLabel, hre, hdrop, hrlast, hlast,
        List.head?_cons, List.length_cons, List.length_append, List.length_nil,
        List.all_cons, List.all_append, List.all_nil,
        Bool.false_or, Bool.and_true, Bool.and_eq_true, decide_eq_true_eq]
      constructor
      · rintro ⟨h1, ⟨h2, h3⟩, h4⟩
        have hc := (isAlnumHyphen_iff c).mpr h1
        have ha := (isAlnumHyphen_iff a).mpr h4
        exact ⟨⟨⟨⟨by omega, by omega⟩, hc.1, h3, ha.1⟩, hc.2⟩, ha.2⟩
      · rintro ⟨⟨⟨⟨-, hlen⟩, h1, h3, h4⟩, hcne⟩, hane⟩
        exact ⟨(isAlnumHyphen_iff c).mp ⟨h1, hcne⟩, ⟨by omega, h3⟩,
          (isAlnumHyphen_iff a).mp ⟨h4, hane⟩⟩

/-- The regex octet language equals the spec octet grammar: a 1-3 digit
numeral with value at most 255. -/
theorem ipv4OctetMatch_eq_spec (p : List Char) : ipv4OctetMatch p = specIPv4Octet p := by
  rcases p with _ | ⟨a, _ | ⟨b, _ | ⟨c, _ | ⟨d, t⟩⟩⟩⟩
  · rfl
  · rw [Bool.eq_iff_iff]
    simp only [ipv4OctetMatch, specIPv4Octet, isDigitAscii, List.all_cons, List.all_nil,
      List.length_cons, List.length_nil, List.foldl_cons, List.foldl_nil,
      Bool.and_true, Bool.and_eq_true, decide_eq_true_eq]
    omega
  · rw [Bool.eq_iff_iff]
    simp only [ipv4OctetMatch, specIPv4Octet, isDigitAscii, List.all_cons, List.all_nil,
      List.length_cons, List.length_nil, List.foldl_cons, List.foldl_nil,
      Bool.and_true, Bool.and_eq_true, decide_eq_true_eq]
    omega
  · rw [Bool.eq_iff_iff]
    simp only [ipv4OctetMatch, specIPv4Octet, isDigitAscii, List.all_cons, List.all_nil,
      List.length_cons, List.length_nil, List.foldl_cons, List.foldl_nil,
      Bool.or_eq_true, Bool.and_true, Bool.and_eq_true, decide_eq_true_eq]
    omega
  · rw [Bool.eq_iff_iff]
    simp only [ipv4OctetMatch, specIPv4Octet, List.length_cons,
      Bool.and_eq_true, decide_eq_true_eq]
    constructor
    · intro h
      simp at h
    · rintro ⟨⟨⟨-, hlen⟩, -⟩, -⟩
      omega

/-- The core DNS pattern language equals the spec DNS-hostname grammar. -/
theorem dnsCoreMatch_eq_spec (s : String) : dnsCoreMatch s = specDnsHostname s := by
  unfold dnsCoreMatch specDnsHostname
  rw [funext dnsLabelMatch_eq_spec]

/-- The core IPv4 pattern language equals the spec dotted-quad grammar. -/
theorem ipv4CoreMatch_eq_spec (s : String) : ipv4CoreMatch s = specIPv4Address s := by
  unfold ipv4CoreMatch specIPv4Address
  rw [funext ipv4OctetMatch_eq_spec]

/-- A Python `^...$` match holds exactly on the core language, possibly
followed by one final newline. -/
theorem pyDollarMatch_iff (core : String → Bool) (s : String) :
    pyDollarMatch core s = true ↔
      core s = true ∨ ∃ t : String, s = t ++ "\n" ∧ core t = true := by
  obtain ⟨l⟩ := s
  unfold pyDollarMatch
  rw [Bool.or_eq_true]
  cases hl : l.getLast? with
  | none =>
    have hnil : l = [] := by
      cases l with
      | nil => rfl
      | cons x xs => rw [List.getLast?_eq_getLast _ (by simp)] at hl; exact absurd hl (by simp)
    subst hnil
    constructor
    · rintro (h | h)
      · exact Or.inl h
      · exact absurd h (by simp)
    · rintro (h | ⟨t, ht, -⟩)
      · exact Or.inl h
      · have := congrArg String.data ht
        rw [String.data_append] at this
        exact absurd this.symm (by simp)
  | some ch =>
    have hne : l ≠ [] := by
      intro he
      rw [he] at hl
      exact absurd hl (by simp)
    constructor
    · rintro (h | h)
      · exact Or.inl h
      · simp only [Bool.and_eq_true, decide_eq_true_eq] at h
        refine Or.inr ⟨String.mk l.dropLast, ?_, h.2⟩
        have hgl : l.getLast hne = ch := by
          rw [List.getLast?_eq_getLast _ hne] at hl
          exact Option.some.inj hl
        have hdata : l = l.dropLast ++ ['\n'] := by
          conv_lhs => rw [← List.dropLast_append_getLast hne]
          rw [hgl, h.1]
        exact (congrArg String.mk hdata).trans rfl
    · rintro (h | ⟨t, ht, hc⟩)
      · exact Or.inl h
      · obtain ⟨tl⟩ := t
        have hdata : l = tl ++ ['\n'] := by
          have := congrArg String.data ht
          rw [String.data_append] at this
          exact this
        subst hdata
        rw [List.getLast?_concat] at hl
        have hch : ch = '\n' := (Option.some.inj hl).symm
        right
        simp only [Bool.and_eq_true, decide_eq_true_eq]
        refine ⟨hch, ?_⟩
        rw [List.dropLast_concat]
        exact hc

/-- C8 amended: `validate_mqtt_host` accepts exactly the strings
matching the DNS-hostname grammar or the dotted-quad IPv4 grammar,
OR such a string followed by one trailing newline (which the Python `$`
anchor also lets through); in particular every grammar-matching string is
accepted, and every rejected string matches neither grammar. -/
theorem c8_theorem : ∀ s : String,
    (validate_mqtt_host s).1 = true ↔
      (specHostOk s = true ∨ ∃ t : String, s = t ++ "\n" ∧ specHostOk t = true) := by
  intro s
  rw [validate_mqtt_host_fst, Bool.or_eq_true, pyDollarMatch_iff, pyDollarMatch_iff]
  unfold specHostOk
  simp only [dnsCoreMatch_eq_spec, ipv4CoreMatch_eq_spec, Bool.or_eq_true]
  constructor
  · rintro ((h | ⟨t, ht, hc⟩) | (h | ⟨t, ht, hc⟩))
    · exact Or.inl (Or.inl h)
    · exact Or.inr ⟨t, ht, Or.inl hc⟩
    · exact Or.inl (Or.inr h)
    · exact Or.inr ⟨t, ht, Or.inr hc⟩
  · rintro ((h | h) | ⟨t, ht, (hc | hc)⟩)
    · exact Or.inl (Or.inl h)
    · exact Or.inr (Or.inl h)
    · exact Or.inl (Or.inr ⟨t, ht, hc⟩)
    · exact Or.inr (Or.inr ⟨t, ht, hc⟩)

/-- C8 is false as stated: `"a\\n"` matches neither the DNS-hostname
grammar nor the IPv4 grammar, yet `validate_mqtt_host` accepts it,
because the Python `$` anchor matches just before a trailing newline. (The
grammar-matching examples are accepted and `"not a host!!"` is rejected,
as the claim says.) -/
theorem c8_counterexample :
    (validate_mqtt_host "a\n").1 = true ∧
    specDnsHostname "a\n" = false ∧ specIPv4Address "a\n" = false ∧
    (validate_mqtt_host "mqtt.example.com").1 = true ∧
    (validate_mqtt_host "192.168.1.100").1 = true ∧
    (validate_mqtt_host "not a host!!").1 = false :=
  ⟨by decide, by decide, by decide, by decide, by decide, by decide⟩

/-- Witness instance of the amended C8 theorem at a concrete IPv4 host. -/
theorem c8_witness :
    (validate_mqtt_host "192.168.1.100").1 = true ↔
      (specHostOk "192.168.1.100" = true ∨
        ∃ t : String, "192.168.1.100" = t ++ "\n" ∧ specHostOk t = true) :=
  c8_theorem "192.168.1.100"

end M3QR
